import Mathlib

/-!
Verification of the Aura secure-assistant core.

Shallow embedding of the security policy engine (`src/security/policy.py`),
the tool executor (`src/tools/tool_executor.py`), the agent message loop
(`src/agent/agent.py`), the watcher call monitor and event dispatcher
(`src/brain/watcher.py`), the call handler decision rule
(`src/brain/call_handler.py`) and the LLM server text generation wrapper
(`src/brain/llm_server.py`).

Impure inputs of the Python code (the wall clock hour, the actuator
behaviour, the LLM backend state, the polled call status) are passed as
explicit parameters.  Python float scores are modelled by exact rationals,
which order the occurring literals the same way IEEE doubles do.
-/

namespace Aura

/-! ## Policy engine (`src/security/policy.py`) -/

/-- Risk classification of an action, `ActionRisk` in `policy.py`. -/
inductive ActionRisk
  | LOW
  | MEDIUM
  | HIGH
  | CRITICAL
deriving DecidableEq, Repr

/-- The numeric value of each enum member (`ActionRisk.LOW = 1`, ...). -/
def ActionRisk.value : ActionRisk → Nat
  | .LOW => 1
  | .MEDIUM => 2
  | .HIGH => 3
  | .CRITICAL => 4

/-- `PolicyEngine.allowed_tools`: the allow-list mapping tool name to risk. -/
def allowed_tools : List (String × ActionRisk) :=
  [("read_notifications", .LOW),
   ("read_whatsapp", .LOW),
   ("send_whatsapp", .MEDIUM),
   ("calendar_create", .MEDIUM),
   ("phone_call", .HIGH),
   ("phone_answer", .HIGH),
   ("read_sms", .LOW),
   ("send_sms", .MEDIUM)]

/-- `PolicyEngine.denied_tools`: the deny-list of tool names. -/
def denied_tools : List String :=
  ["exec_shell", "browse_web", "open_url", "access_bank", "network_scan"]

/-- Dictionary lookup `self.allowed_tools[tool_name]` / membership test. -/
def allowedLookup (tool_name : String) : Option ActionRisk :=
  (allowed_tools.find? (fun p => p.1 == tool_name)).map (·.2)

/-- `PolicyEngine.check_tool(tool_name, user_approved)`: deny-list first,
then allow-list membership, then risk-vs-approval gate. -/
def check_tool (tool_name : String) (user_approved : Bool) : Bool :=
  if denied_tools.contains tool_name then
    false
  else
    match allowedLookup tool_name with
    | none => false
    | some risk_level =>
      if ActionRisk.HIGH.value ≤ risk_level.value then
        if !user_approved then false else true
      else
        true

/-- `PolicyEngine.get_tool_risk`: unknown tools default to `CRITICAL`. -/
def get_tool_risk (tool_name : String) : ActionRisk :=
  (allowedLookup tool_name).getD .CRITICAL

/-- The approval requirement surfaced by the code: `check_tool`'s inner
branch and `agent.py`'s `risk.value >= ActionRisk.HIGH.value` gate. -/
def requires_approval (tool_name : String) : Bool :=
  ActionRisk.HIGH.value ≤ (get_tool_risk tool_name).value

/-! ## Tool executor (`src/tools/tool_executor.py`) -/

/-- The `ToolCall` dataclass; `params` is kept opaque (a JSON blob). -/
structure ToolCall where
  tool : String
  params : String
  reasoning : String
deriving DecidableEq, Repr

/-- An exception raised by a Python tool function into `execute_tool`'s
`except Exception` handler.  `subprocess.TimeoutExpired`, raised when an
underlying device command times out, is such an exception. -/
inductive PyExn
  | timeoutExpired (msg : String)
  | other (msg : String)
deriving DecidableEq, Repr

/-- `str(e)` for a caught exception. -/
def PyExn.str : PyExn → String
  | .timeoutExpired m => m
  | .other m => m

/-- The dictionary returned by a tool function, restricted to its
`"success"` key (the executor reads `result.get("success", False)`;
`none` models a dictionary without that key). -/
structure ToolRet where
  success? : Option Bool
deriving DecidableEq, Repr

/-- Outcome of calling a bound tool function. -/
inductive PyOutcome
  | ret (d : ToolRet)
  | exn (e : PyExn)
deriving DecidableEq, Repr

/-- The tool names registered by `ToolRegistry._register_default_tools`. -/
def registered_tools : List String :=
  ["send_whatsapp_message", "make_phone_call", "send_sms",
   "open_app", "tap_screen", "type_text", "press_back", "press_home",
   "get_current_app", "take_screenshot", "wait"]

/-- Behaviour of the bound tool functions (the device/actuator side), an
input of the model: tool name and params to the outcome of the call. -/
def Actuator : Type := String → String → PyOutcome

/-- The dictionary `ToolExecutor.execute_tool` returns, restricted to
the keys the claims mention. -/
structure ExecResult where
  success : Bool
  tool : Option String
  error : Option String
deriving DecidableEq, Repr

/-- `ToolExecutor.execute_tool`, instrumented: the second component lists
the tool-function invocations performed (`tool(**tool_call.params)` is
the single call site; the lookup miss branch performs none). -/
def execute_tool (act : Actuator) (call : ToolCall) : ExecResult × List String :=
  if registered_tools.contains call.tool then
    match act call.tool call.params with
    | .ret d =>
      ({ success := d.success?.getD false, tool := some call.tool, error := none },
       [call.tool])
    | .exn e =>
      ({ success := false, tool := some call.tool, error := some e.str },
       [call.tool])
  else
    ({ success := false, tool := none,
       error := some ("Unknown tool: " ++ call.tool) }, [])

/-- `ToolExecutor.execute_plan`: run calls in order, append each result,
break after the first result whose `success` is false.  Instrumented with
the concatenated invocation lists. -/
def execute_plan (act : Actuator) : List ToolCall → List ExecResult × List String
  | [] => ([], [])
  | c :: rest =>
    let r := execute_tool act c
    if r.1.success then
      let rs := execute_plan act rest
      (r.1 :: rs.1, r.2 ++ rs.2)
    else
      ([r.1], r.2)

/-- Specification-side fail-fast truncation (from the spec's words:
results strictly in order, halting at and including the first failure). -/
def failFastPrefix : List ExecResult → List ExecResult
  | [] => []
  | r :: rs => if r.success then r :: failFastPrefix rs else [r]

/-! ## Agent message loop, tool branch (`src/agent/agent.py`) -/

/-- Reply of `AuraAgent.process_message` on its tool-call branch. -/
inductive AgentReply
  | blocked (tool : String)
  | cancelled
  | executed (tool : String)
  | notFound
deriving DecidableEq, Repr

/-- `AuraAgent.process_message`, tool-call branch: policy check with the
default `user_approved=False`, then the console approval prompt for
high-risk tools, then tool lookup and execution.  Instrumented with the
list of tools actually executed; `approval` is the operator's console
answer. -/
def agent_handle_tool_call (agent_tools : List String) (tool_name : String)
    (approval : String) : AgentReply × List String :=
  if !check_tool tool_name false then
    (.blocked tool_name, [])
  else if requires_approval tool_name && !(approval.toLower == "y") then
    (.cancelled, [])
  else if agent_tools.contains tool_name then
    (.executed tool_name, [tool_name])
  else
    (.notFound, [])

/-! ## Watcher call monitor (`src/brain/watcher.py`, `_monitor_calls`) -/

/-- Events the call monitor puts on the queue, projected to the
claim-relevant data: the initial ringing event (`type='call'`) and the
auto-answer sub-event (`type='call_auto_answer'`,
`state='auto_answer_ready'`). -/
inductive CallMonEvent
  | ringing (number : String)
  | autoAnswerReady (number : String) (duration : Nat)
deriving DecidableEq, Repr

/-- Is this the `auto_answer_ready` sub-event? -/
def CallMonEvent.isAutoAnswer : CallMonEvent → Bool
  | .autoAnswerReady _ _ => true
  | _ => false

/-- One poll tick of `Watcher._monitor_calls`.  `st` is `active_calls`
(caller id to the tick at which it was first seen, its `start_time`);
`tick` is the current time in seconds (the loop sleeps one second per
iteration); `obs` is the ringing caller `_check_call_status` returned,
if any.  Yields the updated table and the events enqueued this tick. -/
def monitorCallsTick (st : List (String × Nat)) (tick : Nat)
    (obs : Option String) : List (String × Nat) × List CallMonEvent :=
  match obs with
  | none => ([], [])
  | some call_id =>
    match st.find? (fun p => p.1 == call_id) with
    | none => ((call_id, tick) :: st, [.ringing call_id])
    | some p =>
      let duration := tick - p.2
      if duration == 20 then (st, [.autoAnswerReady call_id duration])
      else (st, [])

/-- The poll loop of `_monitor_calls` over a finite observation trace,
one observation per one-second tick. -/
def monitorCallsRun (st : List (String × Nat)) (tick : Nat) :
    List (Option String) → List CallMonEvent
  | [] => []
  | obs :: rest =>
    let s := monitorCallsTick st tick obs
    s.2 ++ monitorCallsRun s.1 (tick + 1) rest

/-! ## Event dispatcher (`src/brain/watcher.py`, `_process_events`) -/

/-- A registered event handler, abstracted to its name and whether its
invocation raises. -/
structure Handler where
  name : String
  raises : Bool
deriving DecidableEq, Repr

/-- `Watcher.register_handler`: append the handler to the list held for
its event type, creating the list on first registration. -/
def register_handler (m : List (String × List Handler)) (event_type : String)
    (h : Handler) : List (String × List Handler) :=
  match m.find? (fun p => p.1 == event_type) with
  | none => (event_type, [h]) :: m
  | some _ => m.map (fun p => if p.1 == event_type then (p.1, p.2 ++ [h]) else p)

/-- `self.event_handlers.get(event.type, [])`. -/
def handlers_for (m : List (String × List Handler)) (event_type : String) :
    List Handler :=
  ((m.find? (fun p => p.1 == event_type)).map (·.2)).getD []

/-- Record of one attempted handler invocation: the handler's name and
whether the invocation raised (the surrounding `except` catches it). -/
structure Invocation where
  handler : String
  raised : Bool
deriving DecidableEq, Repr

/-- The fan-out loop body of `_process_events`: invoke each handler in
list order; a raise is caught and the iteration continues with the
remaining handlers. -/
def fanOutLoop : List Handler → List Invocation
  | [] => []
  | h :: rest => { handler := h.name, raised := h.raises } :: fanOutLoop rest

/-- Processing of one dequeued event: fan it out to the handlers
registered for its type. -/
def process_event (m : List (String × List Handler)) (event_type : String) :
    List Invocation :=
  fanOutLoop (handlers_for m event_type)

/-- The dispatcher loop over a queue of event types in FIFO order; a
fault inside one event's processing is caught and the loop continues. -/
def process_events (m : List (String × List Handler)) :
    List String → List (List Invocation)
  | [] => []
  | e :: rest => process_event m e :: process_events m rest

/-! ## Call handler (`src/brain/call_handler.py`) -/

/-- Python truthiness of an optional string (`None` and `""` are falsy). -/
def pyTruthyStr : Option String → Bool
  | none => false
  | some s => !(s == "")

/-- Python `needle in s` on strings. -/
def strContains (s needle : String) : Bool :=
  decide (needle.data <:+: s.data)

/-- Python `s.startswith(p)`. -/
def startswith (s p : String) : Bool :=
  p.data.isPrefixOf s.data

/-- Whitespace, as stripped by Python `str.strip()`. -/
def isSpaceChar (c : Char) : Bool :=
  c == ' ' || c == '\t' || c == '\n' || c == '\r'

/-- Python `s.strip()`. -/
def pyStrip (s : String) : String :=
  String.mk (((s.data.dropWhile isSpaceChar).reverse.dropWhile isSpaceChar).reverse)

/-- The `CallContext` dataclass.  `urgency` is an exact rational; the
Python float literals occurring here compare the same way. -/
structure CallContext where
  caller_number : String
  caller_name : Option String
  is_contact : Bool
  is_spam : Bool
  relationship : String
  recent_context : String
  urgency : ℚ
deriving DecidableEq, Repr

/-- Family keywords of `_determine_relationship`. -/
def family_terms : List String :=
  ["papa", "mama", "dad", "mom", "father", "mother", "brother", "sister"]

/-- Work keywords of `_determine_relationship`. -/
def work_terms : List String :=
  ["boss", "office", "work", "client", "manager"]

/-- `CallHandler._determine_relationship`.  `recent` carries the contents
of the memory recall results. -/
def determine_relationship (name : Option String) (number : String)
    (recent : List String) : String :=
  if !pyTruthyStr name then "unknown"
  else
    let name_lower := (name.getD "").toLower
    if family_terms.any (fun t => strContains name_lower t) then "family"
    else if work_terms.any (fun t => strContains name_lower t) then "work"
    else if !recent.isEmpty && recent.length > 5 then "friend"
    else "acquaintance"

/-- `CallHandler._check_spam`: the body is a pair of TODO comments and
`return False`. -/
def check_spam (number : String) : Bool :=
  false

/-- `base_scores` of `_calculate_urgency`. -/
def base_scores : List (String × ℚ) :=
  [("family", 0.8), ("work", 0.7), ("friend", 0.5),
   ("acquaintance", 0.4), ("unknown", 0.3)]

/-- `CallHandler._calculate_urgency`: `base_scores.get(relationship, 0.3)`. -/
def calculate_urgency (relationship : String) (recent : List String) : ℚ :=
  ((base_scores.find? (fun p => p.1 == relationship)).map (·.2)).getD 0.3

/-- `CallHandler._build_call_context` on a call with the given number,
contact name and recalled interaction contents. -/
def build_call_context (number : String) (name : Option String)
    (recent : List String) : CallContext :=
  let recent_context :=
    if recent.isEmpty then ""
    else "Recent interactions:\n" ++
      String.intercalate "\n" ((recent.take 3).map (fun r => "- " ++ r))
  let relationship := determine_relationship name number recent
  { caller_number := number
    caller_name := name
    is_contact := pyTruthyStr name
    is_spam := check_spam number
    relationship := relationship
    recent_context := recent_context
    urgency := calculate_urgency relationship recent }

/-- `CallHandler._should_answer_call`; `hour` is `datetime.now().hour`,
passed explicitly. -/
def should_answer_call (hour : Nat) (context : CallContext) : Bool :=
  if context.is_spam then false
  else if context.relationship == "family" && decide ((0.7 : ℚ) < context.urgency) then
    true
  else if context.relationship == "work" && (9 ≤ hour && hour ≤ 18) then true
  else if !(context.recent_context == "") &&
      strContains context.recent_context.toLower "need" then true
  else context.is_contact && decide ((0.5 : ℚ) < context.urgency)

/-- `_should_answer_call` with its spam branch removed, used to state
that the branch is unreachable on contexts the code builds. -/
def should_answer_no_spam_branch (hour : Nat) (context : CallContext) : Bool :=
  if context.relationship == "family" && decide ((0.7 : ℚ) < context.urgency) then
    true
  else if context.relationship == "work" && (9 ≤ hour && hour ≤ 18) then true
  else if !(context.recent_context == "") &&
      strContains context.recent_context.toLower "need" then true
  else context.is_contact && decide ((0.5 : ℚ) < context.urgency)

/-! ## LLM generation (`src/brain/llm_server.py`) and its callers -/

/-- State of the llama.cpp backend as observed by one `LLMServer.generate`
call: server down and not restartable, a non-200 completion response, an
exception during the request, or a 200 response carrying `content`. -/
inductive LLMBackend
  | unavailable
  | httpFailure (status : Nat)
  | raises (msg : String)
  | ok (content : String)
deriving DecidableEq, Repr

/-- `LLMServer.generate`: never raises; failures come back as
error-marker strings, success as the stripped content. -/
def llm_generate (b : LLMBackend) : String :=
  match b with
  | .unavailable => "Error: LLM server not available"
  | .httpFailure _ => "Error: Generation failed"
  | .raises m => "Error: " ++ m
  | .ok content => pyStrip content

/-- `CallHandler._generate_greeting`: one LLM call, the result stripped
and returned unchanged (spoken and stored in the transcript). -/
def generate_greeting (b : LLMBackend) : String :=
  pyStrip (llm_generate b)

/-- `CallHandler.handle_call_conversation`: the in-call response is the
raw LLM output (spoken and appended to the transcript). -/
def call_response (b : LLMBackend) : String :=
  llm_generate b

/-- `CallHandler._summarize_call`: the summary is the raw LLM output. -/
def summarize_call (b : LLMBackend) : String :=
  llm_generate b

/-- The conversational reply path of `aura_engine.py` / `main_v2.py`:
empty or `Error`-marked responses are replaced by a fixed phrase. -/
def chat_reply (b : LLMBackend) : String :=
  let response := llm_generate b
  if response == "" || startswith response "Error" then
    "I'm here! How can I help you today?"
  else response

end Aura

namespace Aura

/-- C1: the policy decision is fail-closed: for every tool name and every
approval flag, a tool in the deny-list, or absent from the allow-list,
is refused by `check_tool`; the deny-list test runs first, so a denied
tool is refused even if it also appears in the allow-list. -/
theorem check_tool_fail_closed (t : String) (a : Bool)
    (h : denied_tools.contains t = true ∨ allowedLookup t = none) :
    check_tool t a = false := by
  rcases h with h | h
  · have hm : t ∈ denied_tools := by simpa using h
    simp [check_tool, hm]
  · by_cases hm : t ∈ denied_tools <;> simp [check_tool, hm, h]

/-- Witness for C1 at the denied tool `exec_shell` (with approval) and a
tool absent from the allow-list (without approval). -/
theorem check_tool_fail_closed_witness :
    check_tool "exec_shell" true = false ∧ check_tool "format_disk" false = false := by
  constructor
  · exact check_tool_fail_closed "exec_shell" true (Or.inl (by decide))
  · exact check_tool_fail_closed "format_disk" false (Or.inr (by decide))

/-- C2: for a tool in the allow-list and not in the deny-list: risk below
`HIGH` means `check_tool t false = true`; risk at least `HIGH` means
`check_tool t false = false` with the approval requirement set, and
`check_tool t true = true`. -/
theorem check_tool_risk_gate (t : String) (r : ActionRisk)
    (hA : allowedLookup t = some r) (hD : denied_tools.contains t = false) :
    (r.value < ActionRisk.HIGH.value → check_tool t false = true) ∧
    (ActionRisk.HIGH.value ≤ r.value →
      check_tool t false = false ∧ requires_approval t = true ∧
      check_tool t true = true) := by
  have hm : t ∉ denied_tools := by simpa using hD
  constructor
  · intro hlt
    simp [check_tool, hm, hA, Nat.not_le.mpr hlt]
  · intro hge
    refine ⟨?_, ?_, ?_⟩
    · simp [check_tool, hm, hA, hge]
    · simp [requires_approval, get_tool_risk, hA, hge]
    · simp [check_tool, hm, hA, hge]

/-- Witness for C2 at the low-risk tool `read_notifications` and the
high-risk tool `phone_call`. -/
theorem check_tool_risk_gate_witness :
    check_tool "read_notifications" false = true ∧
    (check_tool "phone_call" false = false ∧ requires_approval "phone_call" = true ∧
      check_tool "phone_call" true = true) := by
  constructor
  · exact (check_tool_risk_gate "read_notifications" .LOW (by decide) (by decide)).1
      (by decide)
  · exact (check_tool_risk_gate "phone_call" .HIGH (by decide) (by decide)).2
      (by decide)

/-- C3 counterexample: `open_app` is registered in the tool registry but
is not allowed by the policy (`check_tool` refuses it with and without
approval), yet `execute_tool` invokes its bound tool function and returns
a success result: the executor never queries the policy engine. -/
theorem execute_tool_ignores_policy_cex :
    check_tool "open_app" false = false ∧ check_tool "open_app" true = false ∧
    execute_tool (fun _ _ => .ret ⟨some true⟩) ⟨"open_app", "x", ""⟩ =
      ({ success := true, tool := some "open_app", error := none }, ["open_app"]) := by
  refine ⟨by decide, by decide, ?_⟩
  rfl

/-- C3 amended: `ToolExecutor.execute_tool` checks only its registry: a
tool absent from the registry yields a failure result naming the unknown
tool with no tool-function invocation, while registered tools run
regardless of policy.  The policy engine is consulted only by
`AuraAgent.process_message`, which on a policy refusal returns a blocked
reply and executes nothing. -/
theorem executor_registry_agent_policy (act : Actuator) (call : ToolCall)
    (hreg : registered_tools.contains call.tool = false)
    (agent_tools : List String) (t a : String)
    (hpol : check_tool t false = false) :
    execute_tool act call =
      ({ success := false, tool := none,
         error := some ("Unknown tool: " ++ call.tool) }, []) ∧
    agent_handle_tool_call agent_tools t a = (.blocked t, []) := by
  constructor
  · unfold execute_tool
    rw [hreg]
    simp
  · unfold agent_handle_tool_call
    rw [hpol]
    simp

/-- Witness for the amended C3 at the unregistered tool `fly_drone` and
the policy-denied tool `exec_shell`. -/
theorem executor_registry_agent_policy_witness :
    execute_tool (fun _ _ => .ret ⟨some true⟩) ⟨"fly_drone", "x", ""⟩ =
      ({ success := false, tool := none,
         error := some ("Unknown tool: " ++ "fly_drone") }, []) ∧
    agent_handle_tool_call ["phone_call"] "exec_shell" "y" =
      (.blocked "exec_shell", []) :=
  executor_registry_agent_policy _ ⟨"fly_drone", "x", ""⟩ (by decide)
    ["phone_call"] "exec_shell" "y" (by decide)

/-- C4: `execute_plan` executes requests strictly in input order, halts at
the first failing result, and returns exactly the results up to and
including that failure; its invocation trace covers only the executed
prefix.  In particular, for a success/failure/success triple it returns
two results and never attempts the third call. -/
theorem execute_plan_fail_fast (act : Actuator) (plan : List ToolCall) :
    (execute_plan act plan).1 =
      failFastPrefix (plan.map (fun c => (execute_tool act c).1)) ∧
    (execute_plan act plan).2 =
      ((plan.take (execute_plan act plan).1.length).map
        (fun c => (execute_tool act c).2)).flatten ∧
    execute_plan (fun t _ => .ret ⟨some (t != "send_sms")⟩)
        [⟨"open_app", "p", ""⟩, ⟨"send_sms", "q", ""⟩, ⟨"tap_screen", "r", ""⟩] =
      ([{ success := true, tool := some "open_app", error := none },
        { success := false, tool := some "send_sms", error := none }],
       ["open_app", "send_sms"]) := by
  refine ⟨?_, ?_, by rfl⟩
  · induction plan with
    | nil => rfl
    | cons c rest ih =>
      show (let r := execute_tool act c;
        if r.1.success then
          let rs := execute_plan act rest
          (r.1 :: rs.1, r.2 ++ rs.2)
        else ([r.1], r.2)).1 = _
      by_cases h : (execute_tool act c).1.success <;>
        simp [h, failFastPrefix, ih]
  · induction plan with
    | nil => rfl
    | cons c rest ih =>
      show (let r := execute_tool act c;
        if r.1.success then
          let rs := execute_plan act rest
          (r.1 :: rs.1, r.2 ++ rs.2)
        else ([r.1], r.2)).2 = _
      by_cases h : (execute_tool act c).1.success <;>
        simp [execute_plan, h, ih]

/-- C5: when the bound tool function of a registered tool raises (a
subprocess timeout included), `execute_tool` returns a result with
`success = false` and the exception text captured in `error`; being a
total function into `ExecResult`, it propagates no exception. -/
theorem execute_tool_captures_exceptions (act : Actuator) (call : ToolCall)
    (e : PyExn) (hreg : registered_tools.contains call.tool = true)
    (hact : act call.tool call.params = .exn e) :
    (execute_tool act call).1 =
      { success := false, tool := some call.tool, error := some e.str } ∧
    (execute_tool act call).2 = [call.tool] := by
  unfold execute_tool
  rw [hreg, hact]
  simp

/-- Witness for C5: a timeout raised inside `tap_screen` is captured. -/
theorem execute_tool_captures_exceptions_witness :
    (execute_tool (fun _ _ => .exn (.timeoutExpired "Command timed out"))
        ⟨"tap_screen", "p", ""⟩).1 =
      { success := false, tool := some "tap_screen",
        error := some (PyExn.timeoutExpired "Command timed out").str } ∧
    (execute_tool (fun _ _ => .exn (.timeoutExpired "Command timed out"))
        ⟨"tap_screen", "p", ""⟩).2 = ["tap_screen"] :=
  execute_tool_captures_exceptions _ _ _ (by decide) rfl

/-- Auxiliary for C6: with caller `x` tracked since tick `t0`, polling
`m` further ticks of sustained ringing from tick `tick` emits the
auto-answer event exactly when second `t0 + 20` falls in the window. -/
theorem monitorCallsRun_tracked_count (x : String) (t0 : Nat) :
    ∀ (m tick : Nat), t0 ≤ tick →
      (monitorCallsRun [(x, t0)] tick
          (List.replicate m (some x))).countP CallMonEvent.isAutoAnswer =
        if tick - t0 ≤ 20 ∧ 20 < tick - t0 + m then 1 else 0 := by
  intro m
  induction m with
  | zero =>
    intro tick ht
    simp only [List.replicate, monitorCallsRun, List.countP_nil]
    split
    · omega
    · rfl
  | succ k ih =>
    intro tick ht
    have hfind : List.find? (fun p => p.1 == x) [(x, t0)] = some (x, t0) := by
      simp [List.find?]
    simp only [List.replicate, monitorCallsRun, monitorCallsTick, hfind,
      List.countP_append]
    by_cases h20 : tick - t0 = 20
    · have hbeq : (tick - t0 == 20) = true := by simp [h20]
      simp only [hbeq, if_true, List.countP_cons, List.countP_nil,
        CallMonEvent.isAutoAnswer]
      rw [ih (tick + 1) (by omega)]
      split_ifs <;> omega
    · have hbeq : (tick - t0 == 20) = false := by simp [h20]
      simp only [hbeq, Bool.false_eq_true, if_false, List.countP_nil]
      rw [ih (tick + 1) (by omega)]
      split_ifs <;> omega

/-- C6: over a session of `n` one-second poll ticks in which caller `x`
rings continuously from a fresh monitor state, no `auto_answer_ready`
sub-event is emitted when the call ends before the 20-second threshold,
and exactly one is emitted — never re-emitted on later ticks — when
ringing is sustained past it. -/
theorem auto_answer_exactly_once (t n : Nat) (x : String) :
    (n ≤ 20 →
      (monitorCallsRun [] t (List.replicate n (some x))).countP
        CallMonEvent.isAutoAnswer = 0) ∧
    (21 ≤ n →
      (monitorCallsRun [] t (List.replicate n (some x))).countP
        CallMonEvent.isAutoAnswer = 1) := by
  cases n with
  | zero => exact ⟨fun _ => rfl, fun h => by omega⟩
  | succ k =>
    have hstep : monitorCallsRun [] t (List.replicate (k + 1) (some x)) =
        .ringing x :: monitorCallsRun [(x, t)] (t + 1)
          (List.replicate k (some x)) := by
      simp [List.replicate, monitorCallsRun, monitorCallsTick, List.find?]
    have hrest := monitorCallsRun_tracked_count x t k (t + 1) (by omega)
    have ht1 : t + 1 - t = 1 := by omega
    rw [ht1] at hrest
    constructor <;> intro hn
    · rw [hstep, List.countP_cons, hrest, if_neg (by omega)]
      simp [CallMonEvent.isAutoAnswer]
    · rw [hstep, List.countP_cons, hrest, if_pos (by omega : 1 ≤ 20 ∧ 20 < 1 + k)]
      simp [CallMonEvent.isAutoAnswer]

/-- Witness for C6: a 10-tick session emits no auto-answer event; a
25-tick session emits exactly one. -/
theorem auto_answer_exactly_once_witness :
    (monitorCallsRun [] 0 (List.replicate 10 (some "5551234"))).countP
      CallMonEvent.isAutoAnswer = 0 ∧
    (monitorCallsRun [] 0 (List.replicate 25 (some "5551234"))).countP
      CallMonEvent.isAutoAnswer = 1 :=
  ⟨(auto_answer_exactly_once 0 10 "5551234").1 (by omega),
   (auto_answer_exactly_once 0 25 "5551234").2 (by omega)⟩

/-- C7: the should-answer rule is a total deterministic (Boolean)
function of the context and the hour; a spam-flagged context is never
answered whatever its other fields, and a non-spam family caller with
urgency above 0.7 is always answered. -/
theorem should_answer_spam_dominant (hour : Nat) (c : CallContext) :
    (c.is_spam = true → should_answer_call hour c = false) ∧
    (c.is_spam = false → c.relationship = "family" → (0.7 : ℚ) < c.urgency →
      should_answer_call hour c = true) := by
  constructor
  · intro h
    simp [should_answer_call, h]
  · intro h1 h2 h3
    simp [should_answer_call, h1, h2, h3]

/-- Witness for C7: a spam-flagged urgent family call is refused; the
same call without the spam flag is answered. -/
theorem should_answer_spam_dominant_witness :
    should_answer_call 10
      { caller_number := "77", caller_name := some "Papa", is_contact := true,
        is_spam := true, relationship := "family", recent_context := "",
        urgency := 0.8 } = false ∧
    should_answer_call 10
      { caller_number := "77", caller_name := some "Papa", is_contact := true,
        is_spam := false, relationship := "family", recent_context := "",
        urgency := 0.8 } = true :=
  ⟨(should_answer_spam_dominant 10 _).1 rfl,
   (should_answer_spam_dominant 10 _).2 rfl rfl (by norm_num)⟩

/-- Auxiliary for C8: `register_handler` appends the new handler to the
handler list of its event type. -/
theorem handlers_for_register (m : List (String × List Handler))
    (ty : String) (h : Handler) :
    handlers_for (register_handler m ty h) ty = handlers_for m ty ++ [h] := by
  unfold register_handler
  cases hf : m.find? (fun p => p.1 == ty) with
  | none =>
    unfold handlers_for
    rw [hf, List.find?_cons_of_pos _ (by simp)]
    rfl
  | some p =>
    have hkey : (p.1 == ty) = true := by
      have hp := List.find?_some (p := fun q : String × List Handler => q.1 == ty) hf
      simpa using hp
    unfold handlers_for
    rw [List.find?_map]
    have hcomp : ((fun q : String × List Handler => q.1 == ty) ∘
        (fun q : String × List Handler =>
          if q.1 == ty then (q.1, q.2 ++ [h]) else q)) =
        fun q : String × List Handler => q.1 == ty := by
      funext q
      by_cases hq : q.1 = ty <;> simp [hq]
    rw [hcomp, hf]
    have hpty : p.1 = ty := by simpa using hkey
    simp [hpty]

/-- C8: the dispatcher fan-out invokes every handler registered for the
event's kind exactly once, in registration order, regardless of which
handler invocations raise (a raise is caught and the loop goes on);
successive registrations append; the dispatcher loop processes every
queued event; concretely, with two `notification` handlers of which the
first raises, both are invoked exactly once each. -/
theorem dispatcher_fan_out (m : List (String × List Handler)) (ty : String)
    (h1 h2 : Handler) (es : List String) :
    ((process_event m ty).map Invocation.handler =
      (handlers_for m ty).map Handler.name) ∧
    (handlers_for (register_handler (register_handler m ty h1) ty h2) ty =
      handlers_for m ty ++ [h1, h2]) ∧
    (process_events m es = es.map (process_event m)) ∧
    (process_event
        (register_handler (register_handler [] "notification"
          { name := "alpha", raises := true }) "notification"
          { name := "beta", raises := false }) "notification" =
      [{ handler := "alpha", raised := true },
       { handler := "beta", raised := false }]) := by
  refine ⟨?_, ?_, ?_, by rfl⟩
  · unfold process_event
    induction handlers_for m ty with
    | nil => rfl
    | cons a l ih => simp [fanOutLoop, ih]
  · rw [handlers_for_register, handlers_for_register, List.append_assoc]
    rfl
  · induction es with
    | nil => rfl
    | cons e rest ih => simp [process_events, ih]

/-- C9 counterexample: with the LLM backend unavailable, the generated
greeting is exactly the error-marker text returned by
`LLMServer.generate` — it is spoken into the conversation, and no fixed
fallback phrase is substituted. -/
theorem greeting_propagates_error_cex :
    generate_greeting .unavailable = "Error: LLM server not available" ∧
    startswith (generate_greeting .unavailable) "Error" = true ∧
    summarize_call .unavailable = "Error: LLM server not available" ∧
    call_response .unavailable = "Error: LLM server not available" := by
  refine ⟨by decide, by decide, rfl, rfl⟩

/-- C9 amended: `LLMServer.generate` never raises and marks every
failure with a leading `Error`; the conversational chat path substitutes
the fixed phrase for empty or error-marked output, but the call
handler's greeting, in-call response and summary return the LLM output
unchanged (the greeting merely stripped), propagating error text into
the conversation. -/
theorem llm_error_marker_handling (b : LLMBackend)
    (hfail : ∀ c, b ≠ LLMBackend.ok c) :
    startswith (llm_generate b) "Error" = true ∧
    chat_reply b = "I'm here! How can I help you today?" ∧
    generate_greeting b = pyStrip (llm_generate b) ∧
    call_response b = llm_generate b ∧
    summarize_call b = llm_generate b ∧
    chat_reply (.ok "") = "I'm here! How can I help you today?" := by
  have hmark : startswith (llm_generate b) "Error" = true := by
    cases b with
    | unavailable => decide
    | httpFailure s =>
      show startswith "Error: Generation failed" "Error" = true
      decide
    | raises msg =>
      show startswith ("Error: " ++ msg) "Error" = true
      unfold startswith
      rw [String.data_append]
      rw [List.isPrefixOf_iff_prefix]
      exact List.IsPrefix.trans (by decide) (List.prefix_append _ _)
    | ok c => exact absurd rfl (hfail c)
  refine ⟨hmark, ?_, rfl, rfl, rfl, by decide⟩
  unfold chat_reply
  simp [hmark]

/-- Witness for the amended C9 at a request exception `boom`. -/
theorem llm_error_marker_handling_witness :
    startswith (llm_generate (.raises "boom")) "Error" = true ∧
    chat_reply (.raises "boom") = "I'm here! How can I help you today?" ∧
    generate_greeting (.raises "boom") = pyStrip (llm_generate (.raises "boom")) ∧
    call_response (.raises "boom") = llm_generate (.raises "boom") ∧
    summarize_call (.raises "boom") = llm_generate (.raises "boom") ∧
    chat_reply (.ok "") = "I'm here! How can I help you today?" :=
  llm_error_marker_handling (.raises "boom")
    (fun c hc => LLMBackend.noConfusion hc)

/-- C10: the spam check returns false for every number, every context
built by `_build_call_context` carries `is_spam = false`, and on built
contexts the should-answer rule coincides with its spam-branch-free
variant: the never-answer-spam branch is unreachable and no incoming
call is ever declined as spam. -/
theorem spam_branch_unreachable :
    (∀ number, check_spam number = false) ∧
    (∀ number name recent,
      (build_call_context number name recent).is_spam = false) ∧
    (∀ hour number name recent,
      should_answer_call hour (build_call_context number name recent) =
        should_answer_no_spam_branch hour
          (build_call_context number name recent)) := by
  refine ⟨fun _ => rfl, fun _ _ _ => rfl, fun hour number name recent => ?_⟩
  have h : (build_call_context number name recent).is_spam = false := rfl
  unfold should_answer_call should_answer_no_spam_branch
  rw [h]
  simp

end Aura
